import Mathlib

/-!
Verification development for the ephemeris resilience pipeline and the
orbital geometry engine of the solar_system_explore_3d repository.

The TypeScript services are shallowly embedded: JS numbers become
rationals (reals for the trigonometric orbit geometry), external effects
(the Redis backing store, the NASA fetch, wall-clock timestamps) become
explicit function parameters, and effect traces (cache reads and writes,
issued fetches) are returned as explicit components of each operation's
result.  Exceptions thrown by the backing store are modelled with
`Except`; the service functions catch them exactly where the source's
try/catch blocks do, so the embedded functions are total.
-/

set_option autoImplicit false

namespace SolarExplorer

/-- 3D vector with rational coordinates, modelling the `{x, y, z}` number
triples of the source. -/
structure Vec3 where
  x : ℚ
  y : ℚ
  z : ℚ
deriving DecidableEq

/-- `EphemerisData` from `services/nasaClient.ts`: body id, display name,
position (km, scene frame), optional velocity (km/s), ISO timestamp. -/
structure EphemerisData where
  bodyId : String
  name : String
  position : Vec3
  velocity : Option Vec3
  timestamp : String
deriving DecidableEq

/-! ## Cache layer (`services/cacheService.ts`) -/

/-- The backing Redis store: a keyed get and a keyed set with TTL.  Either
operation may throw, modelled with `Except`. -/
structure CacheStore where
  get : String → Except String (Option EphemerisData)
  set : String → EphemerisData → Nat → Except String Unit

/-- `TTL_CONFIG` from `cacheService.ts` (seconds by orbital speed). -/
structure TTLConfig where
  SLOW_PLANETS : Nat
  INNER_PLANETS : Nat
  FAST_BODIES : Nat
deriving DecidableEq

def TTL_CONFIG : TTLConfig :=
  { SLOW_PLANETS := 86400, INNER_PLANETS := 21600, FAST_BODIES := 3600 }

/-- Jupiter, Saturn, Uranus, Neptune. -/
def SLOW_PLANET_IDS : List String := ["599", "699", "799", "899"]

/-- Earth, Moon. -/
def FAST_BODY_IDS : List String := ["399", "301"]

/-- `getCacheKey`: cache key `ephemeris:<bodyId>:<date>`. -/
def getCacheKey (bodyId date : String) : String :=
  "ephemeris:" ++ bodyId ++ ":" ++ date

/-- `getTTL`: TTL in seconds selected by the body's static speed tier. -/
def getTTL (bodyId : String) : Nat :=
  if bodyId ∈ FAST_BODY_IDS then TTL_CONFIG.FAST_BODIES
  else if bodyId ∈ SLOW_PLANET_IDS then TTL_CONFIG.SLOW_PLANETS
  else TTL_CONFIG.INNER_PLANETS

/-- `getCachedEphemeris`: single-body cache read.  `redis = none` models
unconfigured credentials; a thrown backend error is caught and becomes a
miss (`null` in the source). -/
def getCachedEphemeris (redis : Option CacheStore) (bodyId date : String) :
    Option EphemerisData :=
  match redis with
  | none => none
  | some store =>
    match store.get (getCacheKey bodyId date) with
    | Except.ok cached => cached
    | Except.error _ => none

/-- `setCachedEphemeris`: single-body cache write.  Returns the source's
boolean result together with the list of writes that actually reached the
backing store (empty when caching is disabled or the store threw). -/
def setCachedEphemeris (redis : Option CacheStore) (bodyId date : String)
    (data : EphemerisData) : Bool × List (String × EphemerisData × Nat) :=
  match redis with
  | none => (false, [])
  | some store =>
    match store.set (getCacheKey bodyId date) data (getTTL bodyId) with
    | Except.ok _ => (true, [(getCacheKey bodyId date, data, getTTL bodyId)])
    | Except.error _ => (false, [])

/-- Result of the bulk cache read: cached records and missing ids. -/
structure BulkCacheResult where
  cached : List EphemerisData
  missing : List String
deriving DecidableEq

/-- `getCachedBulkEphemeris`: per-body lookups; each body lands in
`cached` when its lookup returned a record and in `missing` otherwise. -/
def getCachedBulkEphemeris (redis : Option CacheStore) (bodyIds : List String)
    (date : String) : BulkCacheResult :=
  match redis with
  | none => ⟨[], bodyIds⟩
  | some store =>
    ⟨bodyIds.filterMap (fun bodyId => getCachedEphemeris (some store) bodyId date),
     bodyIds.filter (fun bodyId => (getCachedEphemeris (some store) bodyId date).isNone)⟩

/-- `setCachedBulkEphemeris`: one write per record; returns the
concatenated backend write trace. -/
def setCachedBulkEphemeris (redis : Option CacheStore) (date : String)
    (dataArray : List EphemerisData) : List (String × EphemerisData × Nat) :=
  (dataArray.map (fun data => (setCachedEphemeris redis data.bodyId date data).2)).flatten

/-- An unreachable backing store: every get and every set throws. -/
def storeUnreachable (store : CacheStore) : Prop :=
  (∀ k, ∃ e, store.get k = Except.error e) ∧
  (∀ k v t, ∃ e, store.set k v t = Except.error e)

/-! ## Route handler (`app/api/ephemeris/route.ts`) -/

/-- `BODY_IDS.SUN` from `nasaClient.ts`. -/
def BODY_IDS_SUN : String := "10"

/-- `Object.values(BODY_IDS)` from `nasaClient.ts`, in declaration order;
`ALL_PLANET_IDS` in `route.ts`. -/
def ALL_PLANET_IDS : List String :=
  ["10", "199", "299", "399", "499", "599", "699", "799", "899"]

/-- `DataSource` tag of `route.ts`. -/
inductive DataSource where
  | NASA_LIVE
  | CACHE_HIT
  | FALLBACK_DATASET
deriving DecidableEq

/-- One entry of the bundled `fallback_planets.json` table. -/
structure FallbackItem where
  bodyId : String
  name : String
  position : Vec3
deriving DecidableEq

/-- `getFallbackData` from `route.ts`: filter the fallback table to the
requested ids and stamp each record with the current time (`now`). -/
def getFallbackData (fallbackData : List FallbackItem) (bodyIds : List String)
    (now : String) : List EphemerisData :=
  (fallbackData.filter (fun item => item.bodyId ∈ bodyIds)).map
    (fun item => ⟨item.bodyId, item.name, item.position, none, now⟩)

/-- The Sun record the route synthesizes inline (`position` at the
origin, no velocity). -/
def sunRecord (now : String) : EphemerisData :=
  ⟨BODY_IDS_SUN, "Sun", ⟨0, 0, 0⟩, none, now⟩

/-- The body of the route's fetch loop, one requested id at a time: the
Sun is synthesized, a successful fetch is kept, and a failed fetch is
backfilled from the Fallback Catalog (skipped when the catalog has no
entry for the id). -/
def fetchStep (fetch : String → Option EphemerisData)
    (fallbackData : List FallbackItem) (now : String) (bodyId : String) :
    Option EphemerisData :=
  if bodyId = BODY_IDS_SUN then some (sunRecord now)
  else
    match fetch bodyId with
    | some data => some data
    | none => (getFallbackData fallbackData [bodyId] now).head?

/-- The route's fetch phase over a list of bodies to fetch (`freshData`
accumulation loop of `route.ts`). -/
def fetchPhase (fetch : String → Option EphemerisData)
    (fallbackData : List FallbackItem) (now : String)
    (bodiesToFetch : List String) : List EphemerisData :=
  bodiesToFetch.filterMap (fetchStep fetch fallbackData now)

/-- Observable outcome of a `GET /api/ephemeris` request: the response
data and source tag, plus the effect traces the claims are about — the
ids submitted to the cache bulk read, the ids actually passed to
`fetchBodyEphemeris`, and the records passed to
`setCachedBulkEphemeris`. -/
structure RouteResult where
  data : List EphemerisData
  source : DataSource
  cacheReadIds : List String
  fetchedIds : List String
  cacheWrites : List EphemerisData
deriving DecidableEq

/-- The cache-read outcome the route starts from (the `cached`/`missing`
locals of `route.ts`): an all-miss result when `forceRefresh` bypasses
the read, the bulk cache read otherwise. -/
def routeCacheResult (redis : Option CacheStore) (bodyIds : List String)
    (requestedDate : String) (forceRefresh : Bool) : BulkCacheResult :=
  if forceRefresh then ⟨[], bodyIds⟩
  else getCachedBulkEphemeris redis bodyIds requestedDate

/-- `bodiesToFetch` in `route.ts`: the missing ids when there are any,
the whole request otherwise. -/
def routeBodiesToFetch (redis : Option CacheStore) (bodyIds : List String)
    (requestedDate : String) (forceRefresh : Bool) : List String :=
  if !(routeCacheResult redis bodyIds requestedDate forceRefresh).missing.isEmpty then
    (routeCacheResult redis bodyIds requestedDate forceRefresh).missing
  else bodyIds

/-- `GET` from `route.ts` (the try-block, i.e. the run in which no
exception escapes the orchestration).  `redis` is the cache backing
store, `fetch` the per-body NASA client result, `fallbackData` the
bundled fallback table, `now` the wall clock. -/
def GET (redis : Option CacheStore) (fetch : String → Option EphemerisData)
    (fallbackData : List FallbackItem) (bodyIds : List String)
    (requestedDate : String) (forceRefresh : Bool) (now : String) : RouteResult :=
  let cacheResult := routeCacheResult redis bodyIds requestedDate forceRefresh
  let cached := cacheResult.cached
  let missing := cacheResult.missing
  let cacheReadIds := if forceRefresh then [] else bodyIds
  if missing.isEmpty && !cached.isEmpty then
    ⟨cached, DataSource.CACHE_HIT, cacheReadIds, [], []⟩
  else
    let bodiesToFetch := routeBodiesToFetch redis bodyIds requestedDate forceRefresh
    let freshData := fetchPhase fetch fallbackData now bodiesToFetch
    let fetchedIds := bodiesToFetch.filter (fun bodyId => bodyId ≠ BODY_IDS_SUN)
    let cacheWrites := if !freshData.isEmpty then freshData else []
    let source :=
      if !cached.isEmpty && freshData.isEmpty then DataSource.CACHE_HIT
      else DataSource.NASA_LIVE
    ⟨cached ++ freshData, source, cacheReadIds, fetchedIds, cacheWrites⟩

/-! ## Bulk NASA client (`fetchAllEphemeris` in `services/nasaClient.ts`) -/

/-- `fetchAllEphemeris`: a synthesized Sun record followed by the
successful per-body fetches; the second component is the trace of ids for
which `fetchBodyEphemeris` was actually called (the loop skips the Sun).
`bodyIds = none` models the omitted argument, defaulted to every catalog
id except the Sun. -/
def fetchAllEphemeris (fetch : String → Option EphemerisData)
    (bodyIds : Option (List String)) (now : String) :
    List EphemerisData × List String :=
  let ids := bodyIds.getD (ALL_PLANET_IDS.filter (fun id => id ≠ BODY_IDS_SUN))
  let nonSun := ids.filter (fun bodyId => bodyId ≠ BODY_IDS_SUN)
  (sunRecord now :: nonSun.filterMap fetch, nonSun)

/-! ## Response parser (`parseVectorFromResponse` in `services/nasaClient.ts`)

The upstream response is plain text; we model it as a `List Char` and
re-implement the handful of JS string primitives the parser uses
(`indexOf`, `substring`, `trim`, `split`, `includes`), the two
label-anchored regular expressions, and `parseFloat`. -/

/-- Scale factor `AU_TO_KM` (1 AU = 149,597,870.7 km). -/
def AU_TO_KM : ℚ := 1495978707 / 10

/-- `AU_PER_DAY_TO_KM_PER_SEC` conversion constant. -/
def AU_PER_DAY_TO_KM_PER_SEC : ℚ := AU_TO_KM / 86400

/-- Does `pat` occur at the very start of `s`? -/
def leadsWith : List Char → List Char → Bool
  | [], _ => true
  | _ :: _, [] => false
  | p :: ps, c :: cs => p == c && leadsWith ps cs

/-- `String.prototype.indexOf` on character lists: index of the first
occurrence of `pat` in `s`, or `none` (the source's `-1`). -/
def findIdx (pat : List Char) : List Char → Option Nat
  | [] => if leadsWith pat [] then some 0 else none
  | c :: cs =>
    if leadsWith pat (c :: cs) then some 0
    else (findIdx pat cs).map (· + 1)

/-- `String.prototype.includes`. -/
def includesSub (s pat : List Char) : Bool := (findIdx pat s).isSome

/-- `String.prototype.substring s a b` (clamps and swaps its bounds). -/
def substringJS (s : List Char) (a b : Nat) : List Char :=
  (s.take (max a b)).drop (min a b)

/-- The whitespace class used by `trim` and the regex `\s` (ASCII). -/
def isSpaceChar (c : Char) : Bool :=
  c == ' ' || c == '\n' || c == '\t' || c == '\r'

/-- `String.prototype.trim`. -/
def trimChars (s : List Char) : List Char :=
  ((s.dropWhile isSpaceChar).reverse.dropWhile isSpaceChar).reverse

/-- `String.prototype.split('\n')`. -/
def splitLines : List Char → List (List Char)
  | [] => [[]]
  | c :: cs =>
    if c == '\n' then [] :: splitLines cs
    else
      match splitLines cs with
      | [] => [[c]]
      | line :: rest => (c :: line) :: rest

/-- Case-insensitive comparison of a literal label against the head of
`s` (the regexes carry the `i` flag); returns the remaining suffix. -/
def dropLabelCI : List Char → List Char → Option (List Char)
  | [], s => some s
  | _ :: _, [] => none
  | l :: ls, c :: cs => if l.toLower == c.toLower then dropLabelCI ls cs else none

def isDigitChar (c : Char) : Bool := '0' ≤ c && c ≤ '9'

/-- Greedy match of the regex capture group
`[-+]?\d+\.?\d*E?[+-]?\d*` (with the `i` flag, so `e` also matches)
against the head of `s`: fails only when no digit follows the optional
sign; every later piece is optional, so greedy matching is exact. -/
def numToken (s : List Char) : Option (List Char) :=
  let signPart : List Char × List Char :=
    match s with
    | c :: cs => if c == '+' || c == '-' then ([c], cs) else ([], s)
    | [] => ([], [])
  let ds := signPart.2.takeWhile isDigitChar
  if ds.isEmpty then none
  else
    let r1 := signPart.2.drop ds.length
    let dotPart : List Char × List Char :=
      match r1 with
      | '.' :: cs => (['.'], cs)
      | _ => ([], r1)
    let ds2 := dotPart.2.takeWhile isDigitChar
    let r2 := dotPart.2.drop ds2.length
    let ePart : List Char × List Char :=
      match r2 with
      | c :: cs => if c == 'E' || c == 'e' then ([c], cs) else ([], r2)
      | [] => ([], r2)
    let sign2Part : List Char × List Char :=
      match ePart.2 with
      | c :: cs => if c == '+' || c == '-' then ([c], cs) else ([], ePart.2)
      | [] => ([], ePart.2)
    let ds3 := sign2Part.2.takeWhile isDigitChar
    some (signPart.1 ++ ds ++ dotPart.1 ++ ds2 ++ ePart.1 ++ sign2Part.1 ++ ds3)

/-- One attempt of the regex `<label>\s*=\s*(<number>)` anchored at the
start of `s`. -/
def matchCaptureHere (label : List Char) (s : List Char) : Option (List Char) :=
  match dropLabelCI label s with
  | none => none
  | some r1 =>
    match r1.dropWhile isSpaceChar with
    | '=' :: r2 => numToken (r2.dropWhile isSpaceChar)
    | _ => none

/-- `line.match(/<label>\s*=\s*(<number>)/i)`: left-to-right scan for the
first position where the whole pattern matches, returning capture
group 1. -/
def regexCapture (label : List Char) : List Char → Option (List Char)
  | [] => matchCaptureHere label []
  | c :: cs =>
    match matchCaptureHere label (c :: cs) with
    | some cap => some cap
    | none => regexCapture label cs

/-- Digit run to a natural number. -/
def digitsToNat (ds : List Char) : Nat :=
  ds.foldl (fun n c => n * 10 + (c.toNat - 48)) 0

/-- The decomposed content of a decimal literal accepted by JS
`parseFloat`: sign, mantissa digits (integer and fraction concatenated),
number of fraction digits, exponent sign, exponent digits. -/
structure FloatParts where
  neg : Bool
  mantDs : List Char
  fracLen : Nat
  expNeg : Bool
  expDs : List Char
deriving DecidableEq

/-- Longest-valid-prefix scan of JS `parseFloat` (finite decimal
literals): optional whitespace and sign, digits with an optional
fraction, and an exponent that counts only when at least one digit
follows it.  `none` models `NaN`. -/
def parseFloatParts (s0 : List Char) : Option FloatParts :=
  let s := s0.dropWhile isSpaceChar
  let signPart : Bool × List Char :=
    match s with
    | '-' :: cs => (true, cs)
    | '+' :: cs => (false, cs)
    | _ => (false, s)
  let intDs := signPart.2.takeWhile isDigitChar
  let r1 := signPart.2.drop intDs.length
  let fracPart : Option (List Char × List Char) :=
    match r1 with
    | '.' :: cs =>
      let fds := cs.takeWhile isDigitChar
      if intDs.isEmpty && fds.isEmpty then none
      else some (fds, cs.drop fds.length)
    | _ => if intDs.isEmpty then none else some ([], r1)
  match fracPart with
  | none => none
  | some (fracDs, r2) =>
    let noExp : FloatParts := ⟨signPart.1, intDs ++ fracDs, fracDs.length, false, []⟩
    match r2 with
    | c :: cs =>
      if c == 'e' || c == 'E' then
        let expSign : Bool × List Char :=
          match cs with
          | '-' :: cs2 => (true, cs2)
          | '+' :: cs2 => (false, cs2)
          | _ => (false, cs)
        let eds := expSign.2.takeWhile isDigitChar
        if eds.isEmpty then some noExp
        else some ⟨signPart.1, intDs ++ fracDs, fracDs.length, expSign.1, eds⟩
      else some noExp
    | [] => some noExp

/-- Numeric value of the decomposed literal. -/
def ratOfParts (p : FloatParts) : ℚ :=
  let mant : ℚ :=
    (if p.neg then -1 else 1) * (digitsToNat p.mantDs : ℚ) / (10 : ℚ) ^ p.fracLen
  if p.expNeg then mant / (10 : ℚ) ^ digitsToNat p.expDs
  else mant * (10 : ℚ) ^ digitsToNat p.expDs

/-- JS `parseFloat` into ℚ (`none` models `NaN`). -/
def parseFloatQ (s0 : List Char) : Option ℚ :=
  (parseFloatParts s0).map ratOfParts

/-- Parsed position and optional velocity, scene frame, km and km/s. -/
structure ParsedVectors where
  position : Vec3
  velocity : Option Vec3
deriving DecidableEq

def soeMarker : List Char := ['$', '$', 'S', 'O', 'E']

def eoeMarker : List Char := ['$', '$', 'E', 'O', 'E']

/-- The trimmed, non-empty data lines between the sentinels. -/
def dataLines (result : List Char) (soeIndex eoeIndex : Nat) : List (List Char) :=
  (((splitLines (trimChars (substringJS result (soeIndex + 5) eoeIndex))).map
      trimChars).filter (fun line => !line.isEmpty))

/-- `line.includes('X =') && line.includes('Y =') && line.includes('Z =')`. -/
def isPositionLine (line : List Char) : Bool :=
  includesSub line ['X', ' ', '='] && includesSub line ['Y', ' ', '='] &&
    includesSub line ['Z', ' ', '=']

/-- `line.includes('VX=') && line.includes('VY=') && line.includes('VZ=')`. -/
def isVelocityLine (line : List Char) : Bool :=
  includesSub line ['V', 'X', '='] && includesSub line ['V', 'Y', '='] &&
    includesSub line ['V', 'Z', '=']

/-- The position line the parser operates on: first sentinel-bounded,
trimmed, non-empty line containing all three position labels. -/
def findPositionLine (result : List Char) : Option (List Char) :=
  match findIdx soeMarker result, findIdx eoeMarker result with
  | some soeIndex, some eoeIndex =>
    (dataLines result soeIndex eoeIndex).find? isPositionLine
  | _, _ => none

/-- The velocity half of the parser: swap the two non-principal axes and
convert AU/day to km/s; `none` when the line or any label is missing
(the source leaves `velocity` undefined and still returns). -/
def parseVelocity (lines : List (List Char)) : Option Vec3 :=
  match lines.find? isVelocityLine with
  | none => none
  | some velocityLine =>
    match regexCapture ['V', 'X'] velocityLine,
        regexCapture ['V', 'Y'] velocityLine,
        regexCapture ['V', 'Z'] velocityLine with
    | some vxs, some vys, some vzs =>
      match parseFloatQ vxs, parseFloatQ vys, parseFloatQ vzs with
      | some vxAU, some vyAU, some vzAU =>
        some ⟨vxAU * AU_PER_DAY_TO_KM_PER_SEC,
              vzAU * AU_PER_DAY_TO_KM_PER_SEC,
              vyAU * AU_PER_DAY_TO_KM_PER_SEC⟩
      | _, _, _ => none
    | _, _, _ => none

/-- `parseVectorFromResponse`: locate the sentinel-bounded block (null if
either marker is absent), find the labelled position line, extract the
three scalars by label-anchored regex, convert AU to km and swap the two
non-principal axes (source z becomes scene y, source y becomes scene z).
The final `parseFloatQ` fallthrough is dead: a regex capture always
starts with an optional sign and a digit, which `parseFloat` accepts. -/
def parseVectorFromResponse (result : List Char) : Option ParsedVectors :=
  match findIdx soeMarker result, findIdx eoeMarker result with
  | some soeIndex, some eoeIndex =>
    let lines := dataLines result soeIndex eoeIndex
    if lines.isEmpty then none
    else
      match lines.find? isPositionLine with
      | none => none
      | some positionLine =>
        match regexCapture ['X'] positionLine, regexCapture ['Y'] positionLine,
            regexCapture ['Z'] positionLine with
        | some xs, some ys, some zs =>
          match parseFloatQ xs, parseFloatQ ys, parseFloatQ zs with
          | some xAU, some yAU, some zAU =>
            some ⟨⟨xAU * AU_TO_KM, zAU * AU_TO_KM, yAU * AU_TO_KM⟩,
                  parseVelocity lines⟩
          | _, _, _ => none
        | _, _, _ => none
  | _, _ => none

/-! ## Orbital geometry engine (`OrbitLine` in the rendering layer)

The point generation of `OrbitLine`: sample `THREE.EllipseCurve(0, 0, a,
b, 0, 2π, false, 0)` at `segments + 1` parameter values (`getPoints`
returns `segments + 1` points at angles `2π·i/segments`) and map each 2D
curve point `(px, py)` to the 3D point `(px − focusOffset, 0, py)`. -/

/-- Points of the orbit path generated by `OrbitLine` for semi-major
axis `a`, eccentricity `e` and the given segment count, before the
orientation rotations (which are distance-preserving). -/
noncomputable def generateOrbitPath (semiMajorAxis eccentricity : ℝ)
    (segments : ℕ) : List (ℝ × ℝ × ℝ) :=
  let semiMinor := semiMajorAxis * Real.sqrt (1 - eccentricity ^ 2)
  let focusOffset := semiMajorAxis * eccentricity
  (List.range (segments + 1)).map fun i =>
    let θ := 2 * Real.pi * i / segments
    (semiMajorAxis * Real.cos θ - focusOffset, 0, semiMinor * Real.sin θ)

/-- Euclidean distance of a scene point from the origin (the focus where
the Sun sits). -/
noncomputable def distFromOrigin (p : ℝ × ℝ × ℝ) : ℝ :=
  Real.sqrt (p.1 ^ 2 + p.2.1 ^ 2 + p.2.2 ^ 2)

/-! ## Concrete sample data used by the witnesses and counterexamples -/

/-- A well-formed sentinel-bounded Horizons response block whose position
line is `X = 1.0E+00 Y = 0.0E+00 Z = 0.0E+00`. -/
def sampleResponse : List Char :=
  ("$$SOE\n 2460318.5 = A.D. 2024-Jan-15\n X = 1.0E+00 Y = 0.0E+00 Z = 0.0E+00\n$$EOE").data

/-- The position line of `sampleResponse`. -/
def samplePositionLine : List Char :=
  ("X = 1.0E+00 Y = 0.0E+00 Z = 0.0E+00").data

/-- Sample fallback-catalog contents covering Mercury and Venus
(concrete stand-in data for `fallback_planets.json`, which ships with
the app as static approximate positions). -/
def sampleFallbackData : List FallbackItem :=
  [⟨"199", "Mercury", ⟨57900000, 0, 0⟩⟩, ⟨"299", "Venus", ⟨108200000, 0, 0⟩⟩]

/-- A fetch stub whose NASA client succeeds for Venus only and fails for
every other body. -/
def venusOnlyFetch : String → Option EphemerisData := fun bodyId =>
  if bodyId = "299" then some ⟨"299", "Venus", ⟨1, 2, 3⟩, none, "t1"⟩ else none


/-! ## Helper lemmas -/

/-- Flattening a map to empty lists yields the empty list. -/
theorem flatten_map_nil {α β : Type} (l : List α) :
    (l.map (fun _ => ([] : List β))).flatten = [] := by
  induction l with
  | nil => rfl
  | cons a t ih => simp [ih]

/-- `filterMap` keeps exactly the elements on which `f` is `some`. -/
theorem length_filterMap_eq_length_filter {α β : Type} (f : α → Option β) (l : List α) :
    (l.filterMap f).length = (l.filter (fun a => (f a).isSome)).length := by
  induction l with
  | nil => rfl
  | cons a t ih =>
    cases hfa : f a <;> simp [List.filterMap_cons, hfa, List.filter_cons, ih]

/-- A boolean predicate partitions a list's length. -/
theorem length_filter_add_length_filter_not {α : Type} (p : α → Bool) (l : List α) :
    (l.filter p).length + (l.filter (fun a => !(p a))).length = l.length := by
  induction l with
  | nil => rfl
  | cons a t ih =>
    cases hpa : p a <;> simp [List.filter_cons, hpa] <;> omega

/-- A boolean predicate partitions every element's multiplicity. -/
theorem count_filter_add_count_filter_not {α : Type} [DecidableEq α]
    (p : α → Bool) (l : List α) (b : α) :
    (l.filter p).count b + (l.filter (fun a => !(p a))).count b = l.count b := by
  cases hpb : p b with
  | true =>
    rw [List.count_filter (by simp [hpb])]
    have h0 : (l.filter (fun a => !(p a))).count b = 0 := by
      rw [List.count_eq_zero]
      intro hmem
      have := (List.mem_filter.mp hmem).2
      simp [hpb] at this
    omega
  | false =>
    rw [List.count_filter (p := fun a => !(p a)) (by simp [hpb])]
    have h0 : (l.filter p).count b = 0 := by
      rw [List.count_eq_zero]
      intro hmem
      have := (List.mem_filter.mp hmem).2
      simp [hpb] at this
    omega

/-- C2: if the backing cache store is not configured (`redis = none`) or
unreachable (every backend call throws), the bulk read reports every
requested body id as a miss with zero hits, single and bulk writes are
no-ops, and — since the embedded operations are total functions whose
try/catch structure mirrors the source — no cache operation propagates an
error to its caller. -/
theorem cache_unavailable_full_miss_and_noop (redis : Option CacheStore)
    (h : redis = none ∨ ∃ store, redis = some store ∧ storeUnreachable store) :
    (∀ (bodyIds : List String) (date : String),
        getCachedBulkEphemeris redis bodyIds date = ⟨[], bodyIds⟩) ∧
    (∀ (bodyId date : String) (data : EphemerisData),
        setCachedEphemeris redis bodyId date data = (false, [])) ∧
    (∀ (date : String) (dataArray : List EphemerisData),
        setCachedBulkEphemeris redis date dataArray = []) := by
  have hget0 : ∀ bodyId date, getCachedEphemeris redis bodyId date = none := by
    rcases h with rfl | ⟨store, rfl, hget, _⟩
    · intro b d; rfl
    · intro b d
      obtain ⟨e, he⟩ := hget (getCacheKey b d)
      simp [getCachedEphemeris, he]
  have hset0 : ∀ (bodyId date : String) (data : EphemerisData),
      setCachedEphemeris redis bodyId date data = (false, []) := by
    rcases h with rfl | ⟨store, rfl, _, hset⟩
    · intro b d dt; rfl
    · intro b d dt
      obtain ⟨e, he⟩ := hset (getCacheKey b d) dt (getTTL b)
      simp [setCachedEphemeris, he]
  refine ⟨?_, hset0, ?_⟩
  · intro bodyIds date
    rcases h with rfl | ⟨store, rfl, -, -⟩
    · rfl
    · unfold getCachedBulkEphemeris
      refine congrArg₂ BulkCacheResult.mk ?_ ?_
      · exact List.filterMap_eq_nil_iff.mpr fun b _ => hget0 b date
      · exact List.filter_eq_self.mpr fun b _ => by simp [hget0 b date]
  · intro date arr
    unfold setCachedBulkEphemeris
    rw [List.map_congr_left fun d _ => congrArg Prod.snd (hset0 d.bodyId date d)]
    exact flatten_map_nil arr

/-- C2 witness: the unconfigured-store case at concrete inputs. -/
theorem cache_unavailable_full_miss_and_noop_witness :
    getCachedBulkEphemeris none ["399", "499"] "2024-01-15" = ⟨[], ["399", "499"]⟩ ∧
    setCachedEphemeris none "399" "2024-01-15" ⟨"399", "Earth", ⟨1, 2, 3⟩, none, "t"⟩ = (false, []) ∧
    setCachedBulkEphemeris none "2024-01-15" [⟨"399", "Earth", ⟨1, 2, 3⟩, none, "t"⟩] = [] :=
  ⟨(cache_unavailable_full_miss_and_noop none (Or.inl rfl)).1 ["399", "499"] "2024-01-15",
   (cache_unavailable_full_miss_and_noop none (Or.inl rfl)).2.1 "399" "2024-01-15" _,
   (cache_unavailable_full_miss_and_noop none (Or.inl rfl)).2.2 "2024-01-15" _⟩

/-- C8: TTL at write time is selected by the body's static speed tier:
Earth and the Moon get 3600 s, the four outer planets get 86400 s, every
other id gets the 21600 s default, and the three tiers are strictly
ordered. -/
theorem getTTL_speed_tiers :
    getTTL "399" = 3600 ∧ getTTL "301" = 3600 ∧
    getTTL "599" = 86400 ∧ getTTL "699" = 86400 ∧
    getTTL "799" = 86400 ∧ getTTL "899" = 86400 ∧
    (∀ bodyId : String, bodyId ∉ FAST_BODY_IDS → bodyId ∉ SLOW_PLANET_IDS →
      getTTL bodyId = 21600) ∧
    TTL_CONFIG.FAST_BODIES < TTL_CONFIG.INNER_PLANETS ∧
    TTL_CONFIG.INNER_PLANETS < TTL_CONFIG.SLOW_PLANETS := by
  refine ⟨by decide, by decide, by decide, by decide, by decide, by decide, ?_, by decide, by decide⟩
  intro b h1 h2
  rw [getTTL, if_neg h1, if_neg h2]
  rfl

/-- C8 witness: Mars is in neither special tier and gets the default TTL. -/
theorem getTTL_speed_tiers_witness :
    ("499" ∉ FAST_BODY_IDS ∧ "499" ∉ SLOW_PLANET_IDS) ∧ getTTL "499" = 21600 :=
  ⟨⟨by decide, by decide⟩, getTTL_speed_tiers.2.2.2.2.2.2.1 "499" (by decide) (by decide)⟩

/-- C9: the bulk cache read partitions the request: hits plus misses
count the requested ids, every miss is a requested id, and every
requested occurrence lands in exactly one of the two sides. -/
theorem bulk_cache_partitions_request (redis : Option CacheStore)
    (bodyIds : List String) (date : String) :
    ((getCachedBulkEphemeris redis bodyIds date).cached.length +
        (getCachedBulkEphemeris redis bodyIds date).missing.length = bodyIds.length) ∧
    (∀ b ∈ (getCachedBulkEphemeris redis bodyIds date).missing, b ∈ bodyIds) ∧
    (∃ hits : List String,
      (getCachedBulkEphemeris redis bodyIds date).cached.length = hits.length ∧
      ∀ b : String,
        hits.count b + (getCachedBulkEphemeris redis bodyIds date).missing.count b
          = bodyIds.count b) := by
  cases redis with
  | none =>
    refine ⟨by simp [getCachedBulkEphemeris], ?_, ⟨[], by simp [getCachedBulkEphemeris], ?_⟩⟩
    · intro b hb
      simpa [getCachedBulkEphemeris] using hb
    · intro b
      simp [getCachedBulkEphemeris]
  | some store =>
    have hmiss : (getCachedBulkEphemeris (some store) bodyIds date).missing
        = bodyIds.filter (fun b => !((getCachedEphemeris (some store) b date).isSome)) := by
      unfold getCachedBulkEphemeris
      exact List.filter_congr fun b _ => by
        cases getCachedEphemeris (some store) b date <;> rfl
    have hcached : (getCachedBulkEphemeris (some store) bodyIds date).cached
        = bodyIds.filterMap (fun b => getCachedEphemeris (some store) b date) := rfl
    refine ⟨?_, ?_, ?_⟩
    · rw [hcached, hmiss, length_filterMap_eq_length_filter]
      exact length_filter_add_length_filter_not _ bodyIds
    · intro b hb
      rw [hmiss] at hb
      exact (List.mem_filter.mp hb).1
    · refine ⟨bodyIds.filter (fun b => (getCachedEphemeris (some store) b date).isSome),
        ?_, ?_⟩
      · rw [hcached]
        exact length_filterMap_eq_length_filter _ bodyIds
      · intro b
        rw [hmiss]
        exact count_filter_add_count_filter_not _ bodyIds b

/-- C9 witness: with caching disabled the single requested id is a miss
and is one of the requested ids. -/
theorem bulk_cache_partitions_request_witness :
    ("399" ∈ (getCachedBulkEphemeris none ["399"] "2024-01-15").missing) ∧ "399" ∈ ["399"] :=
  ⟨by decide, (bulk_cache_partitions_request none ["399"] "2024-01-15").2.1 "399" (by decide)⟩

/-- C3: if either sentinel marker is absent from the upstream response,
the parser fails with `none`; in particular it never fabricates a record
with a defaulted zero position vector for such an input. -/
theorem parse_missing_sentinel_fails (result : List Char)
    (h : findIdx soeMarker result = none ∨ findIdx eoeMarker result = none) :
    parseVectorFromResponse result = none := by
  rcases h with h | h
  · cases he : findIdx eoeMarker result <;> simp [parseVectorFromResponse, h, he]
  · cases hs : findIdx soeMarker result <;> simp [parseVectorFromResponse, h, hs]

/-- C3 witness: a response with data but no sentinels fails. -/
theorem parse_missing_sentinel_fails_witness :
    (findIdx soeMarker ("X = 1.0 Y = 2.0 Z = 3.0").data = none ∨
      findIdx eoeMarker ("X = 1.0 Y = 2.0 Z = 3.0").data = none) ∧
    parseVectorFromResponse ("X = 1.0 Y = 2.0 Z = 3.0").data = none :=
  ⟨Or.inl (by decide),
   parse_missing_sentinel_fails (("X = 1.0 Y = 2.0 Z = 3.0").data) (Or.inl (by decide))⟩

/-- C4: the sample block parses to position `(1 AU in km, 0, 0)`, and in
general every successful parse produces the position
`(x·AU_TO_KM, z·AU_TO_KM, y·AU_TO_KM)` from the parsed source-frame AU
scalars `(x, y, z)` — the two non-principal axes are swapped, the
principal axis is fixed. -/
theorem parse_sample_and_axis_remap :
    parseVectorFromResponse sampleResponse = some ⟨⟨AU_TO_KM, 0, 0⟩, none⟩ ∧
    (∀ (result : List Char) (r : ParsedVectors),
      parseVectorFromResponse result = some r →
      ∃ (line xs ys zs : List Char) (xAU yAU zAU : ℚ),
        findPositionLine result = some line ∧
        regexCapture ['X'] line = some xs ∧
        regexCapture ['Y'] line = some ys ∧
        regexCapture ['Z'] line = some zs ∧
        parseFloatQ xs = some xAU ∧
        parseFloatQ ys = some yAU ∧
        parseFloatQ zs = some zAU ∧
        r.position = ⟨xAU * AU_TO_KM, zAU * AU_TO_KM, yAU * AU_TO_KM⟩) := by
  constructor
  · have h1 : findIdx soeMarker sampleResponse = some 0 := by decide
    have h2 : findIdx eoeMarker sampleResponse = some 73 := by decide
    have h3 : (dataLines sampleResponse 0 73).isEmpty = false := by decide
    have h4 : (dataLines sampleResponse 0 73).find? isPositionLine
        = some samplePositionLine := by decide
    have h5 : regexCapture ['X'] samplePositionLine = some (("1.0E+00").data) := by decide
    have h6 : regexCapture ['Y'] samplePositionLine = some (("0.0E+00").data) := by decide
    have h7 : regexCapture ['Z'] samplePositionLine = some (("0.0E+00").data) := by decide
    have h8 : parseFloatParts (("1.0E+00").data)
        = some ⟨false, ['1', '0'], 1, false, ['0', '0']⟩ := by decide
    have h9 : parseFloatParts (("0.0E+00").data)
        = some ⟨false, ['0', '0'], 1, false, ['0', '0']⟩ := by decide
    have h10 : parseVelocity (dataLines sampleResponse 0 73) = none := by
      have hv : (dataLines sampleResponse 0 73).find? isVelocityLine = none := by decide
      rw [parseVelocity, hv]
    have d1 : digitsToNat ['1', '0'] = 10 := by decide
    have d0 : digitsToNat ['0', '0'] = 0 := by decide
    have hone : ratOfParts ⟨false, ['1', '0'], 1, false, ['0', '0']⟩ = 1 := by
      norm_num [ratOfParts, d1, d0]
    have hzero : ratOfParts ⟨false, ['0', '0'], 1, false, ['0', '0']⟩ = 0 := by
      norm_num [ratOfParts, d1, d0]
    rw [parseVectorFromResponse, h1, h2]
    simp only [h3, Bool.false_eq_true, if_false, h4, h5, h6, h7, parseFloatQ, h8, h9,
      Option.map_some, Option.map_some', h10]
    simp only [hone, hzero, one_mul, zero_mul]
  · intro result r h
    simp only [parseVectorFromResponse] at h
    split at h
    · rename_i soeIndex eoeIndex hsoe heoe
      split at h
      · exact Option.noConfusion h
      · split at h
        · exact Option.noConfusion h
        · rename_i positionLine hfound
          split at h
          · rename_i xs ys zs hxs hys hzs
            split at h
            · rename_i xAU yAU zAU hx hy hz
              cases h
              exact ⟨positionLine, xs, ys, zs, xAU, yAU, zAU,
                by rw [findPositionLine, hsoe, heoe]; exact hfound,
                hxs, hys, hzs, hx, hy, hz, rfl⟩
            · exact Option.noConfusion h
          · exact Option.noConfusion h
    · exact Option.noConfusion h

/-- C4 witness: the general axis-remap statement instantiated at the
sample block. -/
theorem parse_sample_and_axis_remap_witness :
    ∃ (line xs ys zs : List Char) (xAU yAU zAU : ℚ),
      findPositionLine sampleResponse = some line ∧
      regexCapture ['X'] line = some xs ∧
      regexCapture ['Y'] line = some ys ∧
      regexCapture ['Z'] line = some zs ∧
      parseFloatQ xs = some xAU ∧
      parseFloatQ ys = some yAU ∧
      parseFloatQ zs = some zAU ∧
      (⟨⟨AU_TO_KM, 0, 0⟩, none⟩ : ParsedVectors).position
        = ⟨xAU * AU_TO_KM, zAU * AU_TO_KM, yAU * AU_TO_KM⟩ :=
  parse_sample_and_axis_remap.2 sampleResponse ⟨⟨AU_TO_KM, 0, 0⟩, none⟩
    parse_sample_and_axis_remap.1

/-- C1: code bug.  When every per-body fetch fails (returns null) and no
exception escapes the orchestration, the route serves the full-size
result entirely from the Fallback Catalog but tags the aggregate source
`NASA_LIVE`, not `FALLBACK_DATASET` — contradicting
`docs/04-ERROR_STRATEGY.md`, which requires `source: FALLBACK_DATASET`
whenever NASA cannot be contacted and there is no cache. -/
theorem all_fetch_fail_serves_fallback_tagged_live :
    (GET none (fun _ => none) sampleFallbackData ["199", "299"] "2024-01-15" false "t0").data
      = getFallbackData sampleFallbackData ["199", "299"] "t0" ∧
    (GET none (fun _ => none) sampleFallbackData ["199", "299"] "2024-01-15" false "t0").data.length
      = 2 ∧
    (GET none (fun _ => none) sampleFallbackData ["199", "299"] "2024-01-15" false "t0").source
      = DataSource.NASA_LIVE ∧
    (GET none (fun _ => none) sampleFallbackData ["199", "299"] "2024-01-15" false "t0").source
      ≠ DataSource.FALLBACK_DATASET := by
  refine ⟨by decide, by decide, by decide, by decide⟩

/-- C6 counterexample: with Mercury's fetch failing and Venus's fetch
succeeding, the record backfilled from the Fallback Catalog for Mercury
is among the records the route writes back to the cache — refuting the
claim that fallback-backfilled records are never written. -/
theorem fallback_backfill_written_to_cache_cex :
    (⟨"199", "Mercury", ⟨57900000, 0, 0⟩, none, "t0"⟩ : EphemerisData) ∈
      (GET none venusOnlyFetch sampleFallbackData ["199", "299"] "2024-01-15" false "t0").cacheWrites := by
  decide

/-- C6 amended: for every `forceRefresh` value and every cache state,
either the route early-returns the cached batch and writes nothing, or
it writes the whole fetch-phase output back to the cache keyed by the
requested date — newly fetched records, records backfilled from the
Fallback Catalog, and the synthesized Sun record alike; in particular
every fallback backfill of a failed fetch is written, and every record
served that was not replayed from the cache is among the writes. -/
theorem fetch_phase_output_written_to_cache (redis : Option CacheStore)
    (fetch : String → Option EphemerisData) (fallbackData : List FallbackItem)
    (bodyIds : List String) (requestedDate now : String) (forceRefresh : Bool) :
    (((routeCacheResult redis bodyIds requestedDate forceRefresh).missing = [] ∧
        (routeCacheResult redis bodyIds requestedDate forceRefresh).cached ≠ []) →
      (GET redis fetch fallbackData bodyIds requestedDate forceRefresh now).cacheWrites = [] ∧
      (GET redis fetch fallbackData bodyIds requestedDate forceRefresh now).data
        = (routeCacheResult redis bodyIds requestedDate forceRefresh).cached) ∧
    (¬((routeCacheResult redis bodyIds requestedDate forceRefresh).missing = [] ∧
        (routeCacheResult redis bodyIds requestedDate forceRefresh).cached ≠ []) →
      (GET redis fetch fallbackData bodyIds requestedDate forceRefresh now).cacheWrites
        = fetchPhase fetch fallbackData now
            (routeBodiesToFetch redis bodyIds requestedDate forceRefresh)) ∧
    (¬((routeCacheResult redis bodyIds requestedDate forceRefresh).missing = [] ∧
        (routeCacheResult redis bodyIds requestedDate forceRefresh).cached ≠ []) →
      ∀ b ∈ routeBodiesToFetch redis bodyIds requestedDate forceRefresh,
        b ≠ BODY_IDS_SUN → fetch b = none →
        ∀ rec, (getFallbackData fallbackData [b] now).head? = some rec →
          rec ∈ (GET redis fetch fallbackData bodyIds requestedDate forceRefresh now).cacheWrites) ∧
    (∀ rec ∈ (GET redis fetch fallbackData bodyIds requestedDate forceRefresh now).data,
      rec ∈ (routeCacheResult redis bodyIds requestedDate forceRefresh).cached ∨
        rec ∈ (GET redis fetch fallbackData bodyIds requestedDate forceRefresh now).cacheWrites) := by
  have hwif : ∀ (l : List EphemerisData), (if !l.isEmpty then l else []) = l := by
    intro l; cases l <;> rfl
  by_cases hER : (routeCacheResult redis bodyIds requestedDate forceRefresh).missing = [] ∧
      (routeCacheResult redis bodyIds requestedDate forceRefresh).cached ≠ []
  · have hcond : ((routeCacheResult redis bodyIds requestedDate forceRefresh).missing.isEmpty &&
        !(routeCacheResult redis bodyIds requestedDate forceRefresh).cached.isEmpty) = true := by
      simp [List.isEmpty_iff, hER.1, hER.2]
    have hW : (GET redis fetch fallbackData bodyIds requestedDate forceRefresh now).cacheWrites
        = [] := by
      simp [GET, hcond]
    have hD : (GET redis fetch fallbackData bodyIds requestedDate forceRefresh now).data
        = (routeCacheResult redis bodyIds requestedDate forceRefresh).cached := by
      simp [GET, hcond]
    refine ⟨fun _ => ⟨hW, hD⟩, fun h => absurd hER h, fun h => absurd hER h, ?_⟩
    intro rec hrec
    rw [hD] at hrec
    exact Or.inl hrec
  · have hcond : ((routeCacheResult redis bodyIds requestedDate forceRefresh).missing.isEmpty &&
        !(routeCacheResult redis bodyIds requestedDate forceRefresh).cached.isEmpty) = false := by
      rw [Bool.eq_false_iff]
      intro htrue
      exact hER (by simpa [List.isEmpty_iff] using htrue)
    have hW : (GET redis fetch fallbackData bodyIds requestedDate forceRefresh now).cacheWrites
        = fetchPhase fetch fallbackData now
            (routeBodiesToFetch redis bodyIds requestedDate forceRefresh) := by
      simp only [GET, hcond, Bool.false_eq_true, if_false]
      exact hwif _
    have hD : (GET redis fetch fallbackData bodyIds requestedDate forceRefresh now).data
        = (routeCacheResult redis bodyIds requestedDate forceRefresh).cached ++
            fetchPhase fetch fallbackData now
              (routeBodiesToFetch redis bodyIds requestedDate forceRefresh) := by
      simp only [GET, hcond, Bool.false_eq_true, if_false]
    refine ⟨fun h => absurd h hER, fun _ => hW, fun _ b hb hnotsun hfetch rec hrec => ?_, ?_⟩
    · rw [hW]
      exact List.mem_filterMap.mpr ⟨b, hb, by simp [fetchStep, hnotsun, hfetch, hrec]⟩
    · intro rec hrec
      rw [hD] at hrec
      rcases List.mem_append.mp hrec with h | h
      · exact Or.inl h
      · exact Or.inr (by rw [hW]; exact h)

/-- C6 amended witness: the ordinary non-forced cache-miss flow with the
cache unconfigured — the Mercury fallback backfill is among the cache
writes. -/
theorem fetch_phase_output_written_to_cache_witness :
    (¬((routeCacheResult none ["199", "299"] "2024-01-15" false).missing = [] ∧
        (routeCacheResult none ["199", "299"] "2024-01-15" false).cached ≠ []) ∧
      "199" ∈ routeBodiesToFetch none ["199", "299"] "2024-01-15" false ∧
      "199" ≠ BODY_IDS_SUN ∧ venusOnlyFetch "199" = none ∧
      (getFallbackData sampleFallbackData ["199"] "t0").head?
        = some ⟨"199", "Mercury", ⟨57900000, 0, 0⟩, none, "t0"⟩) ∧
    (⟨"199", "Mercury", ⟨57900000, 0, 0⟩, none, "t0"⟩ : EphemerisData) ∈
      (GET none venusOnlyFetch sampleFallbackData ["199", "299"] "2024-01-15" false "t0").cacheWrites :=
  ⟨⟨by decide, by decide, by decide, by decide, by decide⟩,
   (fetch_phase_output_written_to_cache none venusOnlyFetch sampleFallbackData
      ["199", "299"] "2024-01-15" "t0" false).2.2.1 (by decide) "199" (by decide)
      (by decide) (by decide) ⟨"199", "Mercury", ⟨57900000, 0, 0⟩, none, "t0"⟩ (by decide)⟩

/-- C7 counterexample: with the Sun among the requested ids (cache
unconfigured, no force), the Sun's id is submitted to the Cache Layer
bulk read and the synthesized Sun record is among the records written to
the cache — refuting "without writing it to or reading it from the Cache
Layer". -/
theorem sun_read_and_written_through_cache_cex :
    "10" ∈ (GET none (fun _ => none) sampleFallbackData ["10", "199"] "2024-01-15" false "t0").cacheReadIds ∧
    sunRecord "t0" ∈
      (GET none (fun _ => none) sampleFallbackData ["10", "199"] "2024-01-15" false "t0").cacheWrites := by
  refine ⟨by decide, by decide⟩

/-- C7 amended: when the central star body id '10' is requested, the
route synthesizes its record as a constant and never issues a Source
Client fetch for it; the Sun's id is nevertheless included in the Cache
Layer bulk read with the other ids, and the synthesized record is
written back to the Cache Layer with the rest of the fetch-phase
output. -/
theorem sun_synthesized_never_fetched_but_cached
    (fetch : String → Option EphemerisData) (fallbackData : List FallbackItem)
    (bodyIds : List String) (requestedDate now : String)
    (hsun : BODY_IDS_SUN ∈ bodyIds) :
    BODY_IDS_SUN ∉ (GET none fetch fallbackData bodyIds requestedDate false now).fetchedIds ∧
    sunRecord now ∈ (GET none fetch fallbackData bodyIds requestedDate false now).data ∧
    BODY_IDS_SUN ∈ (GET none fetch fallbackData bodyIds requestedDate false now).cacheReadIds ∧
    sunRecord now ∈ (GET none fetch fallbackData bodyIds requestedDate false now).cacheWrites := by
  obtain ⟨b, t, rfl⟩ : ∃ b t, bodyIds = b :: t := by
    cases bodyIds with
    | nil => cases hsun
    | cons b t => exact ⟨b, t, rfl⟩
  have hsunrec : sunRecord now ∈ fetchPhase fetch fallbackData now (b :: t) :=
    List.mem_filterMap.mpr ⟨BODY_IDS_SUN, hsun, by simp [fetchStep]⟩
  have hne : (fetchPhase fetch fallbackData now (b :: t)).isEmpty = false :=
    List.isEmpty_eq_false.mpr (List.ne_nil_of_mem hsunrec)
  simp only [GET, routeCacheResult, routeBodiesToFetch, getCachedBulkEphemeris,
    Bool.false_eq_true, if_false, List.isEmpty_cons, Bool.false_and, Bool.not_false,
    if_true, hne]
  refine ⟨?_, ?_, ?_, ?_⟩
  · intro hmem
    have hcontra := (List.mem_filter.mp hmem).2
    simp at hcontra
  · simpa using hsunrec
  · exact hsun
  · exact hsunrec

/-- C7 amended witness: concrete request containing the Sun. -/
theorem sun_synthesized_never_fetched_but_cached_witness :
    (BODY_IDS_SUN ∈ (["10", "199"] : List String)) ∧
    BODY_IDS_SUN ∉
      (GET none (fun _ => none) sampleFallbackData ["10", "199"] "2024-01-15" false "t0").fetchedIds ∧
    sunRecord "t0" ∈
      (GET none (fun _ => none) sampleFallbackData ["10", "199"] "2024-01-15" false "t0").data ∧
    BODY_IDS_SUN ∈
      (GET none (fun _ => none) sampleFallbackData ["10", "199"] "2024-01-15" false "t0").cacheReadIds ∧
    sunRecord "t0" ∈
      (GET none (fun _ => none) sampleFallbackData ["10", "199"] "2024-01-15" false "t0").cacheWrites :=
  ⟨by decide,
   sun_synthesized_never_fetched_but_cached (fun _ => none) sampleFallbackData
     ["10", "199"] "2024-01-15" "t0" (by decide)⟩

/-- C10: `fetchAllEphemeris` always emits a synthesized Sun record
(id '10', name "Sun", position at the origin, no velocity) as the first
element of its result — also when the Sun is not among the requested
ids — and never issues a fetch for the Sun's id. -/
theorem fetchAll_sun_first_never_fetched (fetch : String → Option EphemerisData)
    (bodyIds : Option (List String)) (now : String) :
    (fetchAllEphemeris fetch bodyIds now).1.head?
      = some ⟨"10", "Sun", ⟨0, 0, 0⟩, none, now⟩ ∧
    BODY_IDS_SUN ∉ (fetchAllEphemeris fetch bodyIds now).2 := by
  constructor
  · rfl
  · intro hmem
    have hcontra := (List.mem_filter.mp hmem).2
    simp at hcontra

/-- Focal-distance formula for one sampled orbit point: the distance from
the origin of the point at angle `θ` equals `a·(1 − e·cos θ)`. -/
theorem orbit_point_distance (a e θ : ℝ) (ha : 0 ≤ a) (he0 : 0 ≤ e) (he1 : e ≤ 1) :
    distFromOrigin
        (a * Real.cos θ - a * e, 0, a * Real.sqrt (1 - e ^ 2) * Real.sin θ)
      = a * (1 - e * Real.cos θ) := by
  have hb : Real.sqrt (1 - e ^ 2) ^ 2 = 1 - e ^ 2 :=
    Real.sq_sqrt (by nlinarith)
  have hs : Real.sin θ ^ 2 + Real.cos θ ^ 2 = 1 := Real.sin_sq_add_cos_sq θ
  have key : (a * Real.cos θ - a * e) ^ 2 + (0 : ℝ) ^ 2 +
      (a * Real.sqrt (1 - e ^ 2) * Real.sin θ) ^ 2
      = (a * (1 - e * Real.cos θ)) ^ 2 := by
    linear_combination (a ^ 2 * Real.sin θ ^ 2) * hb + (a ^ 2 * (1 - e ^ 2)) * hs
  have hec : e * Real.cos θ ≤ e := by
    have := mul_le_mul_of_nonneg_left (Real.cos_le_one θ) he0
    simpa using this
  have hpos : 0 ≤ a * (1 - e * Real.cos θ) := mul_nonneg ha (by linarith)
  rw [distFromOrigin, key, Real.sqrt_sq hpos]

/-- C5: every point of the generated orbit path lies at a focal distance
between perihelion `a(1−e)` and aphelion `a(1+e)` inclusive, and for
`e = 0` every point lies at distance exactly `a` (a circle, not a
degenerate line). -/
theorem orbitPath_focal_distance_bounds (a e : ℝ) (ha : 0 < a) (he0 : 0 ≤ e)
    (he1 : e < 1) (segments : ℕ) :
    (∀ p ∈ generateOrbitPath a e segments,
        a * (1 - e) ≤ distFromOrigin p ∧ distFromOrigin p ≤ a * (1 + e)) ∧
    (e = 0 → ∀ p ∈ generateOrbitPath a e segments, distFromOrigin p = a) := by
  have hpoint : ∀ p ∈ generateOrbitPath a e segments, ∃ θ : ℝ,
      p = (a * Real.cos θ - a * e, 0, a * Real.sqrt (1 - e ^ 2) * Real.sin θ) := by
    intro p hp
    simp only [generateOrbitPath, List.mem_map, List.mem_range] at hp
    obtain ⟨i, -, rfl⟩ := hp
    exact ⟨2 * Real.pi * i / segments, rfl⟩
  constructor
  · intro p hp
    obtain ⟨θ, rfl⟩ := hpoint p hp
    rw [orbit_point_distance a e θ ha.le he0 he1.le]
    have hec : e * Real.cos θ ≤ e := by
      have := mul_le_mul_of_nonneg_left (Real.cos_le_one θ) he0
      simpa using this
    have hec2 : -e ≤ e * Real.cos θ := by
      have := mul_le_mul_of_nonneg_left (Real.neg_one_le_cos θ) he0
      simpa using this
    constructor
    · exact mul_le_mul_of_nonneg_left (by linarith) ha.le
    · exact mul_le_mul_of_nonneg_left (by linarith) ha.le
  · intro he p hp
    obtain ⟨θ, rfl⟩ := hpoint p hp
    rw [orbit_point_distance a e θ ha.le he0 he1.le, he]
    ring

/-- C5 witness: the bounds instantiated for a unit circular orbit. -/
theorem orbitPath_focal_distance_bounds_witness :
    ((0 : ℝ) < 1 ∧ (0 : ℝ) ≤ 0 ∧ (0 : ℝ) < 1) ∧
    (∀ p ∈ generateOrbitPath 1 0 4,
        (1 : ℝ) * (1 - 0) ≤ distFromOrigin p ∧ distFromOrigin p ≤ 1 * (1 + 0)) ∧
    ((0 : ℝ) = 0 → ∀ p ∈ generateOrbitPath 1 0 4, distFromOrigin p = 1) :=
  ⟨⟨one_pos, le_refl 0, one_pos⟩,
   (orbitPath_focal_distance_bounds 1 0 one_pos (le_refl 0) one_pos 4).1,
   (orbitPath_focal_distance_bounds 1 0 one_pos (le_refl 0) one_pos 4).2⟩

end SolarExplorer
